import Mathlib

/-!
Shallow embedding of cni-wrapper-plugin (src/src/cni-wrapper-plugin/main.go).

The orchestration in main.go sequences calls to external collaborators
(delegate plugin, metadata store, policy agent, netlink interface lookup,
legacynet NetIn/NetOut chain managers, IP masquerade toggle).  Those
collaborators live outside src/, so each external call is modelled by its
outcome, supplied in an environment record (AddEnv / DelEnv): the embedding
is the exact control flow of cmdAdd / cmdDel over those outcomes, together
with the trace of calls made (events) and stderr log writes (logs).
-/

namespace CniWrapper

/-- A port mapping from the runtime config (HostPort, ContainerPort).
Go declares the ports as machine integers that may be negative. -/
structure PortMapping where
  hostPort : Int
  containerPort : Int
deriving DecidableEq, Repr

/-- Opaque egress rule descriptor: cmdAdd forwards NetOutRules verbatim to
BulkInsertRules without inspecting the fields, so the model leaves it opaque. -/
abbrev NetOutRule := Nat

/-- The per-container runtime config block of the wrapper config. -/
structure RuntimeConfig where
  portMappings : List PortMapping
  netOutRules : List NetOutRule
deriving DecidableEq, Repr

/-- Fields of lib.WrapperConfig that cmdAdd / cmdDel read. -/
structure WrapperConfig where
  datastore : String
  iptablesLockFile : String
  noMasqueradeCIDRRange : String
  vtepName : String
  policyAgentForcePollAddress : String
  dnsServers : List String
  temporaryUnderlayInterfaceNames : List String
  underlayIPs : List String
  instanceAddress : String
  ingressTag : String
  hostTCPServices : List String
  iptablesASGLogging : Bool
  iptablesC2CLogging : Bool
  iptablesDeniedLogsPerSec : Nat
  iptablesAcceptedUDPLogsPerSec : Nat
  runtimeConfig : RuntimeConfig
deriving DecidableEq, Repr

/-- The DNS block of a CNI 0.3.0 result (current.Result.DNS). -/
structure CNIDNS where
  nameservers : List String
  domain : String
  search : List String
  options : List String
deriving DecidableEq, Repr

/-- The normalized delegate result (current.Result): the assigned IP
addresses in order (modelled by their string form, which is the only form
cmdAdd uses) and the DNS block. -/
structure Result030 where
  ips : List String
  dns : CNIDNS
deriving DecidableEq, Repr

/-- An HTTP response from the policy agent (status code and body). -/
structure HTTPResponse where
  statusCode : Nat
  body : String
deriving DecidableEq, Repr

/-- A record returned by datastore Store.Delete; cmdDel only reads its IP. -/
structure Container where
  ip : String
deriving DecidableEq, Repr

/-- The CNI invocation arguments that cmdAdd / cmdDel read. -/
structure CmdArgs where
  containerID : String
deriving DecidableEq, Repr

/-- The structured errors cmdAdd can return, mirroring the fmt.Errorf
wrappers in main.go (each constructor records one wrapping site and the
data interpolated there). -/
inductive AddErr where
  | configLoad (e : String)
  | pluginController (e : String)
  | delegateCall (e : String)
  | convertResult (e : String)
  | jsonUnmarshal (e : String)
  | storeAdd (e : String)
  | httpTransport (e : String)
  | vpaResponse (code : Nat) (body : String)
  | invalidDNS (entry : String)
  | ifaceLookup (e : String)
  | invalidContainerID
  | netOutInit (e : String)
  | cannotAllocatePort (p : Int)
  | addNetInRule (e : String)
  | bulkInsert (e : String)
  | ipMasq (e : String)
  | print (e : String)
deriving DecidableEq, Repr

/-- The structured errors cmdDel can return. -/
inductive DelErr where
  | configLoad (e : String)
  | pluginController (e : String)
  | ifaceLookup (e : String)
deriving DecidableEq, Repr

/-- One external call made by the orchestration, with the arguments the
orchestration passed.  An event records that the call was issued, whether
or not the call itself then failed. -/
inductive Event where
  | delegateAdd
  | storeAdd (handle ip : String) (metadata : List (String × String))
  | delIPMasq (ip cidr vtep : String)
  | policyNotify (address : String)
  | dnsFiltered (localServers : List String)
  | interfaceLookup
  | netOutInit (handle ip : String) (interfaceNames dnsServers : List String)
  | netInInit (handle : String)
  | netInAddRule (handle : String) (hostPort containerPort : Int)
      (instanceAddress ip : String)
  | bulkInsert (rules : List NetOutRule)
  | addIPMasq (ip cidr vtep : String)
  | printResult (r : Result030)
  | storeDelete (handle : String)
  | delegateDel
  | netInCleanup (handle : String)
  | netOutCleanup (handle ip : String)
deriving DecidableEq, Repr

/-- One write to stderr, mirroring the fmt.Fprintf sites in main.go. -/
inductive LogMsg where
  | storeAddErr (e : String)
  | cleaningUp
  | cleanupDelIPMasq (e : String)
  | storeDeleteErr (e : String)
  | delegateDeleteErr (e : String)
  | netInCleanupErr (e : String)
  | netOutCleanupErr (e : String)
  | delIPMasqErr (e : String)
deriving DecidableEq, Repr

/-- The observable outcome of one cmdAdd invocation: the error returned, the
Go panic on an empty delegate IP list (result030.IPs[0]), or success with
the result printed to the CNI caller. -/
inductive AddOutcome where
  | ok (printed : Result030)
  | err (e : AddErr)
  | panicIPs
deriving DecidableEq, Repr

/-- A full cmdAdd run: external calls made in order, stderr writes in
order, and the outcome. -/
structure AddRun where
  events : List Event
  logs : List LogMsg
  outcome : AddOutcome
deriving DecidableEq, Repr

/-- A full cmdDel run; outcome is the returned error, none on success. -/
structure DelRun where
  events : List Event
  logs : List LogMsg
  outcome : Option DelErr
deriving DecidableEq, Repr

/-- Outcomes of the external calls cmdAdd makes.  parseIP and
isLinkLocalUnicast abstract the Go net package (net.ParseIP returning nil
is modelled by none). -/
structure AddEnv where
  parseIP : String → Option Nat
  isLinkLocalUnicast : Nat → Bool
  loadWrapperConfig : Except String WrapperConfig
  newPluginController : Except String Unit
  delegateAdd : Except String Unit
  convertResult : Except String Result030
  unmarshalMetadata : Except String (List (String × String))
  storeAdd : Except String Unit
  delIPMasq : Except String Unit
  httpGet : Except String HTTPResponse
  getNamesFromIPs : Except String (List String)
  netOutInitialize : Except String Unit
  netInInitialize : Except String Unit
  netInAddRule : PortMapping → Except String Unit
  bulkInsertRules : Except String Unit
  addIPMasq : Except String Unit
  printResult : Except String Unit

/-- Outcomes of the external calls cmdDel makes. -/
structure DelEnv where
  loadWrapperConfig : Except String WrapperConfig
  storeDelete : Except String Container
  newPluginController : Except String Unit
  delegateDel : Except String Unit
  netInCleanup : Except String Unit
  getNamesFromIPs : Except String (List String)
  netOutCleanup : Except String Unit
  delIPMasq : Except String Unit

/-- getLocalDNSServers from main.go: walk the configured list in order,
fail on the first entry net.ParseIP rejects, keep exactly the entries that
are link-local unicast. -/
def getLocalDNSServers (parseIP : String → Option Nat)
    (isLinkLocalUnicast : Nat → Bool) :
    List String → Except String (List String)
  | [] => Except.ok []
  | entry :: rest =>
    match parseIP entry with
    | none => Except.error entry
    | some dnsIP =>
      match getLocalDNSServers parseIP isLinkLocalUnicast rest with
      | Except.error e => Except.error e
      | Except.ok tail =>
        Except.ok (if isLinkLocalUnicast dnsIP then entry :: tail else tail)

/-- The port-mapping loop of cmdAdd (main.go lines 150-157): in list order,
reject a mapping with non-positive host port before calling AddRule for it,
otherwise call AddRule and stop on its error.  Returns the AddRule calls
issued and the error that ended the loop, if any. -/
def processPortMappings (env : AddEnv) (handle instanceAddress containerIP : String) :
    List PortMapping → List Event × Option AddErr
  | [] => ([], none)
  | m :: rest =>
    if m.hostPort ≤ 0 then
      ([], some (AddErr.cannotAllocatePort m.hostPort))
    else
      match env.netInAddRule m with
      | Except.error e =>
        ([Event.netInAddRule handle m.hostPort m.containerPort instanceAddress containerIP],
         some (AddErr.addNetInRule e))
      | Except.ok _ =>
        let r := processPortMappings env handle instanceAddress containerIP rest
        (Event.netInAddRule handle m.hostPort m.containerPort instanceAddress containerIP
           :: r.1, r.2)

/-!
cmdAdd is embedded as a chain of stage functions, one per failure point, in
the exact order of main.go; each stage takes the trace of calls already
made (acc) and either stops with an error or appends its own calls and
passes control to the next stage.  Composed, they are the straight-line
body of cmdAdd.
-/

/-- main.go lines 169-170: overwrite the DNS nameserver list of the
delegate result with the full configured list and print the result. -/
def cmdAddPrint (env : AddEnv) (cfg : WrapperConfig) (result030 : Result030)
    (acc : List Event) : AddRun :=
  let printed : Result030 :=
    ⟨result030.ips, ⟨cfg.dnsServers, result030.dns.domain,
      result030.dns.search, result030.dns.options⟩⟩
  let ev := acc ++ [Event.printResult printed]
  match env.printResult with
  | Except.error e => ⟨ev, [], AddOutcome.err (AddErr.print e)⟩
  | Except.ok _ => ⟨ev, [], AddOutcome.ok printed⟩

/-- main.go lines 164-167: add the masquerade exemption. -/
def cmdAddMasq (env : AddEnv) (cfg : WrapperConfig) (result030 : Result030)
    (containerIP : String) (acc : List Event) : AddRun :=
  let ev := acc ++ [Event.addIPMasq containerIP cfg.noMasqueradeCIDRRange cfg.vtepName]
  match env.addIPMasq with
  | Except.error e => ⟨ev, [], AddOutcome.err (AddErr.ipMasq e)⟩
  | Except.ok _ => cmdAddPrint env cfg result030 ev

/-- main.go lines 159-162: bulk insert of the egress rules. -/
def cmdAddBulkInsert (env : AddEnv) (cfg : WrapperConfig) (result030 : Result030)
    (containerIP : String) (acc : List Event) : AddRun :=
  let ev := acc ++ [Event.bulkInsert cfg.runtimeConfig.netOutRules]
  match env.bulkInsertRules with
  | Except.error e => ⟨ev, [], AddOutcome.err (AddErr.bulkInsert e)⟩
  | Except.ok _ => cmdAddMasq env cfg result030 containerIP ev

/-- main.go lines 139-157: NetIn.Initialize and the port-mapping loop.  The
error of netinProvider.Initialize (line 147) is assigned to err but never
checked, so there is no match on env.netInInitialize: the run continues
regardless of that call's outcome. -/
def cmdAddNetIn (env : AddEnv) (args : CmdArgs) (cfg : WrapperConfig)
    (result030 : Result030) (containerIP : String) (acc : List Event) : AddRun :=
  let ev := acc ++ [Event.netInInit args.containerID]
  let pm := processPortMappings env args.containerID cfg.instanceAddress containerIP
    cfg.runtimeConfig.portMappings
  match pm.2 with
  | some e => ⟨ev ++ pm.1, [], AddOutcome.err e⟩
  | none => cmdAddBulkInsert env cfg result030 containerIP (ev ++ pm.1)

/-- main.go lines 113-137: the empty-container-ID check, then
NetOut.Initialize. -/
def cmdAddNetOut (env : AddEnv) (args : CmdArgs) (cfg : WrapperConfig)
    (result030 : Result030) (containerIP : String)
    (localDNSServers interfaceNames : List String) (acc : List Event) : AddRun :=
  if args.containerID = "" then ⟨acc, [], AddOutcome.err AddErr.invalidContainerID⟩
  else
    let ev := acc ++
      [Event.netOutInit args.containerID containerIP interfaceNames localDNSServers]
    match env.netOutInitialize with
    | Except.error e => ⟨ev, [], AddOutcome.err (AddErr.netOutInit e)⟩
    | Except.ok _ => cmdAddNetIn env args cfg result030 containerIP ev

/-- main.go lines 99-111: interface names come from the configured override
list when it is nonempty, otherwise from the netlink lookup (whose failure
is fatal). -/
def cmdAddIface (env : AddEnv) (args : CmdArgs) (cfg : WrapperConfig)
    (result030 : Result030) (containerIP : String)
    (localDNSServers : List String) (acc : List Event) : AddRun :=
  if cfg.temporaryUnderlayInterfaceNames.length > 0 then
    cmdAddNetOut env args cfg result030 containerIP localDNSServers
      cfg.temporaryUnderlayInterfaceNames acc
  else
    match env.getNamesFromIPs with
    | Except.error e =>
      ⟨acc ++ [Event.interfaceLookup], [], AddOutcome.err (AddErr.ifaceLookup e)⟩
    | Except.ok ns =>
      cmdAddNetOut env args cfg result030 containerIP localDNSServers ns
        (acc ++ [Event.interfaceLookup])

/-- main.go lines 94-97: filter the configured DNS servers; an unparsable
entry is fatal. -/
def cmdAddDNS (env : AddEnv) (args : CmdArgs) (cfg : WrapperConfig)
    (result030 : Result030) (containerIP : String) (acc : List Event) : AddRun :=
  match getLocalDNSServers env.parseIP env.isLinkLocalUnicast cfg.dnsServers with
  | Except.error entry => ⟨acc, [], AddOutcome.err (AddErr.invalidDNS entry)⟩
  | Except.ok localDNSServers =>
    cmdAddIface env args cfg result030 containerIP localDNSServers
      (acc ++ [Event.dnsFiltered localDNSServers])

/-- main.go lines 84-92: the policy-agent HTTP notification; a transport
error or a status other than 200 is fatal. -/
def cmdAddNotify (env : AddEnv) (args : CmdArgs) (cfg : WrapperConfig)
    (result030 : Result030) (containerIP : String) (acc : List Event) : AddRun :=
  let ev := acc ++ [Event.policyNotify cfg.policyAgentForcePollAddress]
  match env.httpGet with
  | Except.error e => ⟨ev, [], AddOutcome.err (AddErr.httpTransport e)⟩
  | Except.ok resp =>
    if resp.statusCode ≠ 200 then
      ⟨ev, [], AddOutcome.err (AddErr.vpaResponse resp.statusCode resp.body)⟩
    else cmdAddDNS env args cfg result030 containerIP ev

/-- cmdAdd from main.go: config load, plugin controller construction,
delegate call, result normalization, containerIP := result030.IPs[0] (a Go
panic when the list is empty), metadata unmarshal, the datastore write with
its compensating DelIPMasq on failure (lines 72-82), then the notification
stage chain. -/
def cmdAdd (env : AddEnv) (args : CmdArgs) : AddRun :=
  match env.loadWrapperConfig with
  | Except.error e => ⟨[], [], AddOutcome.err (AddErr.configLoad e)⟩
  | Except.ok cfg =>
  match env.newPluginController with
  | Except.error e => ⟨[], [], AddOutcome.err (AddErr.pluginController e)⟩
  | Except.ok _ =>
  match env.delegateAdd with
  | Except.error e => ⟨[Event.delegateAdd], [], AddOutcome.err (AddErr.delegateCall e)⟩
  | Except.ok _ =>
  match env.convertResult with
  | Except.error e => ⟨[Event.delegateAdd], [], AddOutcome.err (AddErr.convertResult e)⟩
  | Except.ok result030 =>
  match result030.ips with
  | [] => ⟨[Event.delegateAdd], [], AddOutcome.panicIPs⟩
  | containerIP :: _ =>
  match env.unmarshalMetadata with
  | Except.error e => ⟨[Event.delegateAdd], [], AddOutcome.err (AddErr.jsonUnmarshal e)⟩
  | Except.ok metadata =>
  let ev1 := [Event.delegateAdd, Event.storeAdd args.containerID containerIP metadata]
  match env.storeAdd with
  | Except.error e =>
    let ev2 := ev1 ++ [Event.delIPMasq containerIP cfg.noMasqueradeCIDRRange cfg.vtepName]
    match env.delIPMasq with
    | Except.error e2 =>
      ⟨ev2, [LogMsg.storeAddErr e, LogMsg.cleaningUp, LogMsg.cleanupDelIPMasq e2],
       AddOutcome.err (AddErr.storeAdd e)⟩
    | Except.ok _ =>
      ⟨ev2, [LogMsg.storeAddErr e, LogMsg.cleaningUp], AddOutcome.err (AddErr.storeAdd e)⟩
  | Except.ok _ => cmdAddNotify env args cfg result030 containerIP ev1

/-- cmdDel from main.go, stage by stage in source order.  Failures of
store.Delete, DelegateDel, NetIn.Cleanup, NetOut.Cleanup and DelIPMasq are
written to stderr and execution continues; failures of config load, of
newPluginController and of the interface-name lookup (lines 188-190,
208-211, 237-240) are returned to the caller.  When store.Delete fails,
container is the Go zero value, so its IP is the empty string. -/
def cmdDel (env : DelEnv) (args : CmdArgs) : DelRun :=
  match env.loadWrapperConfig with
  | Except.error e => ⟨[], [], some (DelErr.configLoad e)⟩
  | Except.ok n =>
  let sd := match env.storeDelete with
    | Except.error e => (Container.mk "", [LogMsg.storeDeleteErr e])
    | Except.ok c => (c, [])
  let container := sd.1
  let ev1 := [Event.storeDelete args.containerID]
  match env.newPluginController with
  | Except.error e => ⟨ev1, sd.2, some (DelErr.pluginController e)⟩
  | Except.ok _ =>
  let lg2 := sd.2 ++ (match env.delegateDel with
    | Except.error e => [LogMsg.delegateDeleteErr e]
    | Except.ok _ => [])
  let ev2 := ev1 ++ [Event.delegateDel]
  let lg3 := lg2 ++ (match env.netInCleanup with
    | Except.error e => [LogMsg.netInCleanupErr e]
    | Except.ok _ => [])
  let ev3 := ev2 ++ [Event.netInCleanup args.containerID]
  match
    (if n.temporaryUnderlayInterfaceNames.length > 0 then
      Except.ok (n.temporaryUnderlayInterfaceNames, ev3)
    else
      match env.getNamesFromIPs with
      | Except.error e => Except.error e
      | Except.ok ns => Except.ok (ns, ev3 ++ [Event.interfaceLookup])) with
  | Except.error e => ⟨ev3 ++ [Event.interfaceLookup], lg3, some (DelErr.ifaceLookup e)⟩
  | Except.ok (_interfaceNames, ev4) =>
  let lg4 := lg3 ++ (match env.netOutCleanup with
    | Except.error e => [LogMsg.netOutCleanupErr e]
    | Except.ok _ => [])
  let ev5 := ev4 ++ [Event.netOutCleanup args.containerID container.ip]
  let lg5 := lg4 ++ (match env.delIPMasq with
    | Except.error e => [LogMsg.delIPMasqErr e]
    | Except.ok _ => [])
  let ev6 := ev5 ++ [Event.delIPMasq container.ip n.noMasqueradeCIDRRange n.vtepName]
  ⟨ev6, lg5, none⟩

/-- MaxLength given to the legacynet.ChainNamer built for NetOut in cmdAdd
(main.go lines 118-120). -/
def addNetOutChainNamerMaxLength : Nat := 28

/-- MaxLength given to the legacynet.ChainNamer built for NetIn in cmdAdd
(main.go lines 140-142). -/
def addNetInChainNamerMaxLength : Nat := 28

/-- MaxLength given to the legacynet.ChainNamer built for NetIn in cmdDel
(main.go lines 218-220). -/
def delNetInChainNamerMaxLength : Nat := 28

/-- MaxLength given to the legacynet.ChainNamer built for NetOut in cmdDel
(main.go lines 244-246). -/
def delNetOutChainNamerMaxLength : Nat := 28

/-- Modelled from the spec: the legacynet.ChainNamer naming function itself
is not under src/ (main.go only constructs the namer with MaxLength 28).
Per the spec, a chain identifier is derived deterministically from the
container handle plus a role tag, and truncated to the configured maximum
length.  The model joins the role tag and handle and truncates the result
to maxLength characters. -/
def chainName (maxLength : Nat) (roleTag handle : String) : String :=
  if (roleTag ++ "--" ++ handle).length > maxLength then
    String.mk ((roleTag ++ "--" ++ handle).data.take maxLength)
  else roleTag ++ "--" ++ handle

/-!  Concrete data for witnesses and counterexamples. -/

/-- A toy model of net.ParseIP for concrete runs: two known addresses. -/
def demoParseIP : String → Option Nat := fun s =>
  if s = "169.254.0.2" then some 0 else if s = "8.8.8.8" then some 1 else none

/-- A toy model of IP.IsLinkLocalUnicast: address 0 (169.254.0.2) is
link-local unicast, others are not. -/
def demoIsLinkLocalUnicast : Nat → Bool := fun ip => ip = 0

/-- A wrapper config with the given port mappings; DNS servers are one
link-local and one public address, no underlay-interface override. -/
def demoConfig (pms : List PortMapping) : WrapperConfig :=
  ⟨"/var/vcap/data/container-metadata/store.json", "/var/vcap/data/iptables.lock",
   "10.255.0.0/16", "silk-vtep", "127.0.0.1:8765", ["169.254.0.2", "8.8.8.8"],
   [], ["10.0.16.4"], "10.0.16.4", "ffff0000", [], false, false, 0, 0,
   ⟨pms, [7]⟩⟩

/-- The delegate result used in concrete runs: two assigned addresses and a
DNS block that cmdAdd's success path partially overwrites. -/
def demoResult : Result030 :=
  ⟨["10.255.30.5", "10.255.30.6"], ⟨["10.10.10.10"], "apps.internal", ["sd"], ["od"]⟩⟩

/-- An AddEnv whose external calls all succeed except where the four
arguments say otherwise: the wrapper config, the store write, the
compensating DelIPMasq, the policy-agent response, and NetIn.Initialize. -/
def mkAddEnv (cfg : WrapperConfig) (storeAddR delIPMasqR : Except String Unit)
    (httpGetR : Except String HTTPResponse) (netInInitR : Except String Unit) : AddEnv :=
  ⟨demoParseIP, demoIsLinkLocalUnicast, Except.ok cfg, Except.ok (), Except.ok (),
   Except.ok demoResult, Except.ok [("policy_group_id", "pg-1")],
   storeAddR, delIPMasqR, httpGetR, Except.ok ["eth0"], Except.ok (),
   netInInitR, fun _ => Except.ok (), Except.ok (), Except.ok (), Except.ok ()⟩

/-- The all-success AddEnv with one port mapping 8080 → 80. -/
def happyAddEnv : AddEnv :=
  mkAddEnv (demoConfig [⟨8080, 80⟩]) (Except.ok ()) (Except.ok ())
    (Except.ok ⟨200, "ok"⟩) (Except.ok ())

/-- The CNI arguments used in concrete runs. -/
def demoArgs : CmdArgs := ⟨"container-1"⟩

/-- A DelEnv from the outcomes of each of cmdDel's external calls. -/
def mkDelEnv (cfg : WrapperConfig) (storeDeleteR : Except String Container)
    (delegateDelR netInCleanupR : Except String Unit)
    (getNamesR : Except String (List String))
    (netOutCleanupR delIPMasqR : Except String Unit) : DelEnv :=
  ⟨Except.ok cfg, storeDeleteR, Except.ok (), delegateDelR, netInCleanupR,
   getNamesR, netOutCleanupR, delIPMasqR⟩

/-- The all-success DelEnv. -/
def happyDelEnv : DelEnv :=
  mkDelEnv (demoConfig [⟨8080, 80⟩]) (Except.ok ⟨"10.255.30.5"⟩)
    (Except.ok ()) (Except.ok ()) (Except.ok ["eth0"]) (Except.ok ()) (Except.ok ())

/-- Hypotheses fixing the cmdAdd prelude: config load, plugin-controller
construction, delegate call, result normalization and metadata unmarshal
all succeed. -/
def DelegateOk (env : AddEnv) (cfg : WrapperConfig) (result030 : Result030)
    (metadata : List (String × String)) : Prop :=
  env.loadWrapperConfig = Except.ok cfg ∧ env.newPluginController = Except.ok () ∧
  env.delegateAdd = Except.ok () ∧ env.convertResult = Except.ok result030 ∧
  env.unmarshalMetadata = Except.ok metadata

/-- Discriminator for ingress port-mapping rule insertions in a trace. -/
def Event.isNetInAddRule : Event → Bool
  | Event.netInAddRule _ _ _ _ _ => true
  | _ => false

/-- The container IP cmdDel works with: the IP of the record the store
delete returned, or the empty string (Go zero value) when it failed. -/
def delContainerIP (env : DelEnv) : String :=
  match env.storeDelete with
  | Except.ok c => c.ip
  | Except.error _ => ""

/-- The environment of an Add run in which every external call succeeds
except NetIn chain initialization, with one port mapping 8080 → 80. -/
def c1Env : AddEnv :=
  mkAddEnv (demoConfig [⟨8080, 80⟩]) (Except.ok ()) (Except.ok ())
    (Except.ok ⟨200, "ok"⟩) (Except.error "iptables: chain creation failed")

/-- The environment of an Add run with no port mappings in which every
external call succeeds except NetIn chain initialization. -/
def c4Env : AddEnv :=
  mkAddEnv (demoConfig []) (Except.ok ()) (Except.ok ())
    (Except.ok ⟨200, "ok"⟩) (Except.error "iptables: chain creation failed")

/-- The environment of an Add run in which the policy agent answers HTTP
201 and every external call succeeds. -/
def c5Env : AddEnv :=
  mkAddEnv (demoConfig [⟨8080, 80⟩]) (Except.ok ()) (Except.ok ())
    (Except.ok ⟨201, "created"⟩) (Except.ok ())

/-- The environment of a Del run in which the netlink interface-name
lookup fails and every other external call succeeds (no underlay-interface
override is configured). -/
def c2Env : DelEnv :=
  mkDelEnv (demoConfig [⟨8080, 80⟩]) (Except.ok ⟨"10.255.30.5"⟩)
    (Except.ok ()) (Except.ok ()) (Except.error "netlink: route lookup failed")
    (Except.ok ()) (Except.ok ())

/-- The environment of a Del run in which the metadata-store delete, the
delegate delete and the masquerade removal all fail while the rest
succeeds. -/
def c2WitnessEnv : DelEnv :=
  mkDelEnv (demoConfig [⟨8080, 80⟩]) (Except.error "store file unwritable")
    (Except.error "delegate plugin gone") (Except.ok ()) (Except.ok ["eth0"])
    (Except.ok ()) (Except.error "masq rule already gone")

/-- The environment of an Add run in which the metadata-store write and
the compensating DelIPMasq both fail while the rest succeeds. -/
def c3Env : AddEnv :=
  mkAddEnv (demoConfig [⟨8080, 80⟩])
    (Except.error "open store.json: permission denied")
    (Except.error "masq rule not found") (Except.ok ⟨200, "ok"⟩) (Except.ok ())

/-- The environment of an Add run whose port-mapping list has a valid
mapping, then one with host port 0, then another valid one; all external
calls succeed. -/
def c6Env : AddEnv :=
  mkAddEnv (demoConfig [⟨8080, 80⟩, ⟨0, 90⟩, ⟨7070, 70⟩]) (Except.ok ())
    (Except.ok ()) (Except.ok ⟨200, "ok"⟩) (Except.ok ())

/-- A container handle of 21 characters a followed by X. -/
def c10HandleA : String := "aaaaaaaaaaaaaaaaaaaaaX"

/-- A container handle of 21 characters a followed by Y. -/
def c10HandleB : String := "aaaaaaaaaaaaaaaaaaaaaY"

/-!  Trace monotonicity: every stage only appends to the call trace, so a
call already recorded stays in the final trace of the run. -/

theorem cmdAddPrint_events_mono {x : Event} {env cfg result030 acc}
    (h : x ∈ acc) : x ∈ (cmdAddPrint env cfg result030 acc).events := by
  unfold cmdAddPrint
  cases env.printResult <;> simp [h]

theorem cmdAddMasq_events_mono {x : Event} {env cfg result030 containerIP acc}
    (h : x ∈ acc) : x ∈ (cmdAddMasq env cfg result030 containerIP acc).events := by
  unfold cmdAddMasq
  cases env.addIPMasq <;>
    simp [h, cmdAddPrint_events_mono (List.mem_append_left _ h)]

theorem cmdAddBulkInsert_events_mono {x : Event} {env cfg result030 containerIP acc}
    (h : x ∈ acc) : x ∈ (cmdAddBulkInsert env cfg result030 containerIP acc).events := by
  unfold cmdAddBulkInsert
  cases env.bulkInsertRules <;>
    simp [h, cmdAddMasq_events_mono (List.mem_append_left _ h)]

theorem cmdAddNetIn_events_mono {x : Event} {env args cfg result030 containerIP acc}
    (h : x ∈ acc) : x ∈ (cmdAddNetIn env args cfg result030 containerIP acc).events := by
  unfold cmdAddNetIn
  rcases hpm : (processPortMappings env args.containerID cfg.instanceAddress containerIP
      cfg.runtimeConfig.portMappings).2 with _ | e <;> simp only [hpm]
  · exact cmdAddBulkInsert_events_mono (by simp [h])
  · simp [h]

theorem cmdAddNetOut_events_mono {x : Event}
    {env args cfg result030 containerIP localDNSServers interfaceNames acc}
    (h : x ∈ acc) :
    x ∈ (cmdAddNetOut env args cfg result030 containerIP localDNSServers
      interfaceNames acc).events := by
  unfold cmdAddNetOut
  by_cases hid : args.containerID = "" <;>
    cases env.netOutInitialize <;>
      simp [h, hid, cmdAddNetIn_events_mono (List.mem_append_left _ h)]

theorem cmdAddIface_events_mono {x : Event}
    {env args cfg result030 containerIP localDNSServers acc}
    (h : x ∈ acc) :
    x ∈ (cmdAddIface env args cfg result030 containerIP localDNSServers acc).events := by
  unfold cmdAddIface
  by_cases ht : cfg.temporaryUnderlayInterfaceNames.length > 0 <;>
    cases env.getNamesFromIPs <;>
      simp [h, ht, cmdAddNetOut_events_mono h,
        cmdAddNetOut_events_mono (List.mem_append_left _ h)]

theorem cmdAddDNS_events_mono {x : Event}
    {env args cfg result030 containerIP acc}
    (h : x ∈ acc) :
    x ∈ (cmdAddDNS env args cfg result030 containerIP acc).events := by
  unfold cmdAddDNS
  cases getLocalDNSServers env.parseIP env.isLinkLocalUnicast cfg.dnsServers <;>
    simp [h, cmdAddIface_events_mono (List.mem_append_left _ h)]

/-!  Outcome shapes: once the policy-agent notification has succeeded, no
later stage can produce a vpaResponse error, so an abort with that error
pinpoints the notification stage. -/

theorem processPortMappings_err_shape (env : AddEnv)
    (handle instanceAddress containerIP : String) (ms : List PortMapping) :
    (processPortMappings env handle instanceAddress containerIP ms).2 = none ∨
    (∃ p, (processPortMappings env handle instanceAddress containerIP ms).2 =
      some (AddErr.cannotAllocatePort p)) ∨
    (∃ s, (processPortMappings env handle instanceAddress containerIP ms).2 =
      some (AddErr.addNetInRule s)) := by
  induction ms with
  | nil => simp [processPortMappings]
  | cons m rest ih =>
    by_cases hm : m.hostPort ≤ 0
    · simp [processPortMappings, hm]
    · rcases hr : env.netInAddRule m with e | u
      · simp [processPortMappings, hm, hr]
      · simpa [processPortMappings, hm, hr] using ih

theorem cmdAddPrint_no_vpa {env cfg result030 acc} (c : Nat) (b : String) :
    (cmdAddPrint env cfg result030 acc).outcome ≠
      AddOutcome.err (AddErr.vpaResponse c b) := by
  unfold cmdAddPrint
  cases env.printResult <;> simp

theorem cmdAddMasq_no_vpa {env cfg result030 containerIP acc} (c : Nat) (b : String) :
    (cmdAddMasq env cfg result030 containerIP acc).outcome ≠
      AddOutcome.err (AddErr.vpaResponse c b) := by
  unfold cmdAddMasq
  cases env.addIPMasq <;> simp [cmdAddPrint_no_vpa]

theorem cmdAddBulkInsert_no_vpa {env cfg result030 containerIP acc}
    (c : Nat) (b : String) :
    (cmdAddBulkInsert env cfg result030 containerIP acc).outcome ≠
      AddOutcome.err (AddErr.vpaResponse c b) := by
  unfold cmdAddBulkInsert
  cases env.bulkInsertRules <;> simp [cmdAddMasq_no_vpa]

theorem cmdAddNetIn_no_vpa {env args cfg result030 containerIP acc}
    (c : Nat) (b : String) :
    (cmdAddNetIn env args cfg result030 containerIP acc).outcome ≠
      AddOutcome.err (AddErr.vpaResponse c b) := by
  unfold cmdAddNetIn
  rcases processPortMappings_err_shape env args.containerID cfg.instanceAddress
      containerIP cfg.runtimeConfig.portMappings with hpm | ⟨p, hpm⟩ | ⟨s, hpm⟩ <;>
    simp [hpm, cmdAddBulkInsert_no_vpa]

theorem cmdAddNetOut_no_vpa
    {env args cfg result030 containerIP localDNSServers interfaceNames acc}
    (c : Nat) (b : String) :
    (cmdAddNetOut env args cfg result030 containerIP localDNSServers
      interfaceNames acc).outcome ≠ AddOutcome.err (AddErr.vpaResponse c b) := by
  unfold cmdAddNetOut
  by_cases hid : args.containerID = "" <;>
    cases env.netOutInitialize <;> simp [hid, cmdAddNetIn_no_vpa]

theorem cmdAddIface_no_vpa
    {env args cfg result030 containerIP localDNSServers acc} (c : Nat) (b : String) :
    (cmdAddIface env args cfg result030 containerIP localDNSServers acc).outcome ≠
      AddOutcome.err (AddErr.vpaResponse c b) := by
  unfold cmdAddIface
  by_cases ht : cfg.temporaryUnderlayInterfaceNames.length > 0 <;>
    cases env.getNamesFromIPs <;> simp [ht, cmdAddNetOut_no_vpa]

theorem cmdAddDNS_no_vpa
    {env args cfg result030 containerIP acc} (c : Nat) (b : String) :
    (cmdAddDNS env args cfg result030 containerIP acc).outcome ≠
      AddOutcome.err (AddErr.vpaResponse c b) := by
  unfold cmdAddDNS
  cases getLocalDNSServers env.parseIP env.isLinkLocalUnicast cfg.dnsServers <;>
    simp [cmdAddIface_no_vpa]

/-!  Characterizations of the DNS filter and of the port-mapping loop. -/

/-- When every configured entry parses, getLocalDNSServers succeeds and
returns exactly the entries whose parsed address is link-local unicast, in
order. -/
theorem getLocalDNSServers_all_parse (parseIP : String → Option Nat)
    (isLLU : Nat → Bool) (l : List String)
    (h : ∀ s ∈ l, (parseIP s).isSome) :
    getLocalDNSServers parseIP isLLU l =
      Except.ok (l.filter fun s => ((parseIP s).map isLLU).getD false) := by
  induction l with
  | nil => simp [getLocalDNSServers]
  | cons entry rest ih =>
    rcases hp : parseIP entry with _ | ip
    · exact absurd (h entry (by simp)) (by simp [hp])
    · have hrest := ih fun s hs => h s (List.mem_cons_of_mem _ hs)
      by_cases hl : isLLU ip = true <;>
        simp [getLocalDNSServers, hp, hrest, List.filter_cons, hl]

/-- getLocalDNSServers fails with the first entry that does not parse. -/
theorem getLocalDNSServers_first_bad (parseIP : String → Option Nat)
    (isLLU : Nat → Bool) (pre : List String) (bad : String) (post : List String)
    (hpre : ∀ s ∈ pre, (parseIP s).isSome)
    (hbad : parseIP bad = none) :
    getLocalDNSServers parseIP isLLU (pre ++ bad :: post) = Except.error bad := by
  induction pre with
  | nil => simp [getLocalDNSServers, hbad]
  | cons entry rest ih =>
    rcases hp : parseIP entry with _ | ip
    · exact absurd (hpre entry (by simp)) (by simp [hp])
    · have hrest := ih fun s hs => hpre s (List.mem_cons_of_mem _ hs)
      simp [getLocalDNSServers, hp, hrest]

/-- When every mapping in the list has a positive host port and its AddRule
call succeeds, the loop issues one AddRule call per mapping, in list order,
and reports no error. -/
theorem processPortMappings_all_ok (env : AddEnv)
    (handle instanceAddress containerIP : String) (ms : List PortMapping)
    (h : ∀ m ∈ ms, 0 < m.hostPort ∧ env.netInAddRule m = Except.ok ()) :
    processPortMappings env handle instanceAddress containerIP ms =
      (ms.map fun m =>
        Event.netInAddRule handle m.hostPort m.containerPort instanceAddress containerIP,
       none) := by
  induction ms with
  | nil => simp [processPortMappings]
  | cons m rest ih =>
    obtain ⟨hpos, hok⟩ := h m (by simp)
    have hrest := ih fun x hx => h x (List.mem_cons_of_mem _ hx)
    simp [processPortMappings, Int.not_le.mpr hpos, hok, hrest]

/-- When an initial segment of the list is accepted and applied and the
next mapping has a non-positive host port, the loop stops at that mapping
with the cannot-allocate-port error, has issued exactly the AddRule calls
for the initial segment, and has issued no call for the offending mapping
or for anything after it. -/
theorem processPortMappings_split_bad (env : AddEnv)
    (handle instanceAddress containerIP : String)
    (good : List PortMapping) (bad : PortMapping) (rest : List PortMapping)
    (hg : ∀ m ∈ good, 0 < m.hostPort ∧ env.netInAddRule m = Except.ok ())
    (hb : bad.hostPort ≤ 0) :
    processPortMappings env handle instanceAddress containerIP (good ++ bad :: rest) =
      (good.map fun m =>
        Event.netInAddRule handle m.hostPort m.containerPort instanceAddress containerIP,
       some (AddErr.cannotAllocatePort bad.hostPort)) := by
  induction good with
  | nil => simp [processPortMappings, hb]
  | cons m gs ih =>
    obtain ⟨hpos, hok⟩ := hg m (by simp)
    have hrest := ih fun x hx => hg x (List.mem_cons_of_mem _ hx)
    simp [processPortMappings, Int.not_le.mpr hpos, hok, hrest]

/-- C1: the claim says a NetIn chain-initialization failure aborts the Add
and no port-mapping ingress rule is applied after it.  The code assigns the
error of netinProvider.Initialize to err but never checks it (main.go line
147), so on an environment where that call fails and everything else
succeeds the Add still applies the port-mapping ingress rule and returns
success. -/
theorem c1_netin_init_failure_ignored :
    c1Env.netInInitialize = Except.error "iptables: chain creation failed" ∧
    Event.netInAddRule "container-1" 8080 80 "10.0.16.4" "10.255.30.5" ∈
      (cmdAdd c1Env demoArgs).events ∧
    (cmdAdd c1Env demoArgs).outcome =
      AddOutcome.ok ⟨["10.255.30.5", "10.255.30.6"],
        ⟨["169.254.0.2", "8.8.8.8"], "apps.internal", ["sd"], ["od"]⟩⟩ := by
  refine ⟨rfl, ?_, ?_⟩ <;> decide

/-- C4: the claim says the masquerade exemption is added only after ingress
chain initialization has succeeded.  Because the error of
netinProvider.Initialize is never checked (main.go line 147), on an
environment where that call fails and everything else succeeds the Add
still reaches AddIPMasq and completes, so the exemption is added without
ingress initialization having succeeded. -/
theorem c4_masq_added_despite_ingress_init_failure :
    c4Env.netInInitialize = Except.error "iptables: chain creation failed" ∧
    Event.addIPMasq "10.255.30.5" "10.255.0.0/16" "silk-vtep" ∈
      (cmdAdd c4Env demoArgs).events ∧
    (cmdAdd c4Env demoArgs).outcome =
      AddOutcome.ok ⟨["10.255.30.5", "10.255.30.6"],
        ⟨["169.254.0.2", "8.8.8.8"], "apps.internal", ["sd"], ["od"]⟩⟩ := by
  refine ⟨rfl, ?_, ?_⟩ <;> decide

/-- C5 counterexample: the claim says any 2xx policy-agent response lets
the Add continue; the code tests StatusCode != 200 (main.go line 88), so a
201 response aborts the Add with the vpa error. -/
theorem c5_status_201_aborts :
    (cmdAdd c5Env demoArgs).outcome =
      AddOutcome.err (AddErr.vpaResponse 201 "created") := by
  decide

/-- C2 counterexample: the claim says an interface-name-resolution failure
during Del is logged and non-fatal, with subsequent steps still running and
Del returning success; the code returns that error (main.go lines 237-240),
so Del fails and neither NetOut cleanup nor masquerade removal is
attempted. -/
theorem c2_iface_lookup_failure_fatal :
    (cmdDel c2Env demoArgs).outcome =
      some (DelErr.ifaceLookup "netlink: route lookup failed") ∧
    (cmdDel c2Env demoArgs).events =
      [Event.storeDelete "container-1", Event.delegateDel,
       Event.netInCleanup "container-1", Event.interfaceLookup] := by
  decide

/-- C10 counterexample: truncation of the joined role tag and handle to 28
characters maps these two different handles to the same chain name, so two
different container handles can produce colliding chain names under the
bound. -/
theorem c10_chain_name_collision :
    c10HandleA ≠ c10HandleB ∧
    chainName 28 "netin" c10HandleA = chainName 28 "netin" c10HandleB := by
  decide

/-- C3: if the metadata-store write fails during Add, the orchestration
attempts the masquerade-exemption removal as a compensating action, a
failure of that compensation is only logged, and Add aborts returning the
store error, not the compensation error. -/
theorem c3_store_failure_compensates (env : AddEnv) (args : CmdArgs)
    (cfg : WrapperConfig) (result030 : Result030)
    (metadata : List (String × String)) (ip : String) (rest : List String)
    (e : String)
    (hok : DelegateOk env cfg result030 metadata)
    (hips : result030.ips = ip :: rest)
    (hstore : env.storeAdd = Except.error e) :
    (cmdAdd env args).outcome = AddOutcome.err (AddErr.storeAdd e) ∧
    Event.delIPMasq ip cfg.noMasqueradeCIDRRange cfg.vtepName ∈
      (cmdAdd env args).events ∧
    LogMsg.storeAddErr e ∈ (cmdAdd env args).logs ∧
    ∀ e2, env.delIPMasq = Except.error e2 →
      LogMsg.cleanupDelIPMasq e2 ∈ (cmdAdd env args).logs := by
  obtain ⟨h1, h2, h3, h4, h5⟩ := hok
  rcases hd : env.delIPMasq with e2 | u <;>
    simp [cmdAdd, h1, h2, h3, h4, h5, hips, hstore, hd]

/-- C3 witness: the theorem at a concrete environment where the store
write fails and the compensating DelIPMasq also fails. -/
theorem c3_store_failure_compensates_witness :
    (cmdAdd c3Env demoArgs).outcome =
      AddOutcome.err (AddErr.storeAdd "open store.json: permission denied") ∧
    Event.delIPMasq "10.255.30.5" "10.255.0.0/16" "silk-vtep" ∈
      (cmdAdd c3Env demoArgs).events ∧
    LogMsg.storeAddErr "open store.json: permission denied" ∈
      (cmdAdd c3Env demoArgs).logs ∧
    ∀ e2, c3Env.delIPMasq = Except.error e2 →
      LogMsg.cleanupDelIPMasq e2 ∈ (cmdAdd c3Env demoArgs).logs :=
  c3_store_failure_compensates c3Env demoArgs (demoConfig [⟨8080, 80⟩])
    demoResult [("policy_group_id", "pg-1")] "10.255.30.5" ["10.255.30.6"]
    "open store.json: permission denied" ⟨rfl, rfl, rfl, rfl, rfl⟩ rfl rfl

/-- C2 (amended): for a Del whose config parses, whose iptables controller
constructs, and whose interface names resolve (an override list is
configured, or the netlink lookup succeeds), failures of the
metadata-store delete, the delegate delete, the ingress teardown, the
egress teardown and the masquerade removal are each logged to the error
stream and non-fatal, all of those steps still run, and Del returns
success.  (Per the counterexample, an interface-name lookup failure is
returned to the caller instead.) -/
theorem c2_del_best_effort (env : DelEnv) (args : CmdArgs) (cfg : WrapperConfig)
    (hload : env.loadWrapperConfig = Except.ok cfg)
    (hpc : env.newPluginController = Except.ok ())
    (hifc : 0 < cfg.temporaryUnderlayInterfaceNames.length ∨
      ∃ ns, env.getNamesFromIPs = Except.ok ns) :
    (cmdDel env args).outcome = none ∧
    Event.storeDelete args.containerID ∈ (cmdDel env args).events ∧
    Event.delegateDel ∈ (cmdDel env args).events ∧
    Event.netInCleanup args.containerID ∈ (cmdDel env args).events ∧
    Event.netOutCleanup args.containerID (delContainerIP env) ∈
      (cmdDel env args).events ∧
    Event.delIPMasq (delContainerIP env) cfg.noMasqueradeCIDRRange cfg.vtepName ∈
      (cmdDel env args).events ∧
    (∀ e, env.storeDelete = Except.error e →
      LogMsg.storeDeleteErr e ∈ (cmdDel env args).logs) ∧
    (∀ e, env.delegateDel = Except.error e →
      LogMsg.delegateDeleteErr e ∈ (cmdDel env args).logs) ∧
    (∀ e, env.netInCleanup = Except.error e →
      LogMsg.netInCleanupErr e ∈ (cmdDel env args).logs) ∧
    (∀ e, env.netOutCleanup = Except.error e →
      LogMsg.netOutCleanupErr e ∈ (cmdDel env args).logs) ∧
    (∀ e, env.delIPMasq = Except.error e →
      LogMsg.delIPMasqErr e ∈ (cmdDel env args).logs) := by
  by_cases hl : 0 < cfg.temporaryUnderlayInterfaceNames.length
  · rcases hsd : env.storeDelete with esd | csd <;>
      refine ⟨?_, ?_, ?_, ?_, ?_, ?_, ?_, ?_, ?_, ?_, ?_⟩ <;>
      first
        | (intro e he; simp [cmdDel, delContainerIP, hload, hpc, hsd, hl, he])
        | simp [cmdDel, delContainerIP, hload, hpc, hsd, hl]
  · obtain hov | ⟨ns, hns⟩ := hifc
    · exact absurd hov hl
    · rcases hsd : env.storeDelete with esd | csd <;>
        refine ⟨?_, ?_, ?_, ?_, ?_, ?_, ?_, ?_, ?_, ?_, ?_⟩ <;>
        first
          | (intro e he; simp [cmdDel, delContainerIP, hload, hpc, hsd, hl, hns, he])
          | simp [cmdDel, delContainerIP, hload, hpc, hsd, hl, hns]

/-- C2 witness: the theorem at a concrete environment where the store
delete, the delegate delete and the masquerade removal fail; Del still
returns success and logs the store failure. -/
theorem c2_del_best_effort_witness :
    (cmdDel c2WitnessEnv demoArgs).outcome = none ∧
    LogMsg.storeDeleteErr "store file unwritable" ∈ (cmdDel c2WitnessEnv demoArgs).logs ∧
    Event.delIPMasq "" "10.255.0.0/16" "silk-vtep" ∈ (cmdDel c2WitnessEnv demoArgs).events :=
  ⟨(c2_del_best_effort c2WitnessEnv demoArgs (demoConfig [⟨8080, 80⟩]) rfl rfl
      (Or.inr ⟨["eth0"], rfl⟩)).1,
   (c2_del_best_effort c2WitnessEnv demoArgs (demoConfig [⟨8080, 80⟩]) rfl rfl
      (Or.inr ⟨["eth0"], rfl⟩)).2.2.2.2.2.2.1 "store file unwritable" rfl,
   (c2_del_best_effort c2WitnessEnv demoArgs (demoConfig [⟨8080, 80⟩]) rfl rfl
      (Or.inr ⟨["eth0"], rfl⟩)).2.2.2.2.2.1⟩

/-- C5 (amended): with the prelude and the datastore write successful, the
Add aborts at the policy-agent notification exactly when the notification
fails: a transport error is returned; a non-200 status (including any
other 2xx status) aborts with an error carrying the response code and
body, the datastore record written before is not removed (the trace ends
at the notification, holding the store write and no removal call); a 200
response continues past notification and the run can never later abort
with a vpa error. -/
theorem c5_notify_abort_characterization (env : AddEnv) (args : CmdArgs)
    (cfg : WrapperConfig) (result030 : Result030)
    (metadata : List (String × String)) (ip : String) (rest : List String)
    (hok : DelegateOk env cfg result030 metadata)
    (hips : result030.ips = ip :: rest)
    (hstore : env.storeAdd = Except.ok ()) :
    (∀ e, env.httpGet = Except.error e →
      (cmdAdd env args).outcome = AddOutcome.err (AddErr.httpTransport e)) ∧
    (∀ resp, env.httpGet = Except.ok resp → resp.statusCode ≠ 200 →
      (cmdAdd env args).outcome =
        AddOutcome.err (AddErr.vpaResponse resp.statusCode resp.body) ∧
      (cmdAdd env args).events =
        [Event.delegateAdd, Event.storeAdd args.containerID ip metadata,
         Event.policyNotify cfg.policyAgentForcePollAddress]) ∧
    (∀ resp, env.httpGet = Except.ok resp → resp.statusCode = 200 →
      Event.storeAdd args.containerID ip metadata ∈ (cmdAdd env args).events ∧
      (∀ c b, (cmdAdd env args).outcome ≠ AddOutcome.err (AddErr.vpaResponse c b)) ∧
      ((∃ entry, (cmdAdd env args).outcome = AddOutcome.err (AddErr.invalidDNS entry)) ∨
       ∃ l, Event.dnsFiltered l ∈ (cmdAdd env args).events)) := by
  obtain ⟨h1, h2, h3, h4, h5⟩ := hok
  refine ⟨?_, ?_, ?_⟩
  · intro e he
    simp [cmdAdd, cmdAddNotify, h1, h2, h3, h4, h5, hips, hstore, he]
  · intro resp hr hne
    constructor <;>
      simp [cmdAdd, cmdAddNotify, h1, h2, h3, h4, h5, hips, hstore, hr, hne]
  · intro resp hr h200
    have hrun : cmdAdd env args = cmdAddDNS env args cfg result030 ip
        [Event.delegateAdd, Event.storeAdd args.containerID ip metadata,
         Event.policyNotify cfg.policyAgentForcePollAddress] := by
      simp [cmdAdd, cmdAddNotify, h1, h2, h3, h4, h5, hips, hstore, hr, h200]
    rw [hrun]
    refine ⟨cmdAddDNS_events_mono (by simp), fun c b => cmdAddDNS_no_vpa c b, ?_⟩
    rcases hdns : getLocalDNSServers env.parseIP env.isLinkLocalUnicast cfg.dnsServers
      with entry | l
    · exact Or.inl ⟨entry, by simp [cmdAddDNS, hdns]⟩
    · refine Or.inr ⟨l, ?_⟩
      simp only [cmdAddDNS, hdns]
      exact cmdAddIface_events_mono (by simp)

/-- C5 witness: the theorem at the concrete environment where the policy
agent answers 201; the Add aborts with the code and body in the error and
the trace ends at the notification with the store write still in it. -/
theorem c5_notify_abort_characterization_witness :
    (cmdAdd c5Env demoArgs).outcome = AddOutcome.err (AddErr.vpaResponse 201 "created") ∧
    (cmdAdd c5Env demoArgs).events =
      [Event.delegateAdd,
       Event.storeAdd "container-1" "10.255.30.5" [("policy_group_id", "pg-1")],
       Event.policyNotify "127.0.0.1:8765"] :=
  (c5_notify_abort_characterization c5Env demoArgs (demoConfig [⟨8080, 80⟩])
      demoResult [("policy_group_id", "pg-1")] "10.255.30.5" ["10.255.30.6"]
      ⟨rfl, rfl, rfl, rfl, rfl⟩ rfl rfl).2.1 ⟨201, "created"⟩ rfl (by decide)

/-- Filtering a list of AddRule events for AddRule events is the
identity. -/
theorem filter_isNetInAddRule_map (handle instanceAddress ipStr : String)
    (l : List PortMapping) :
    (l.map fun m =>
      Event.netInAddRule handle m.hostPort m.containerPort instanceAddress ipStr).filter
        Event.isNetInAddRule =
      l.map fun m =>
        Event.netInAddRule handle m.hostPort m.containerPort instanceAddress ipStr := by
  induction l with
  | nil => rfl
  | cons m ms ih => simp [Event.isNetInAddRule, ih]

/-- C6: port mappings are handled in list order; the first mapping with a
non-positive host port makes Add fail with the cannot-allocate-port error
before any AddRule call is made for it; the AddRule calls in the trace are
exactly those for the earlier mappings of the list, in order, and no
ingress-cleanup call is in the trace (no rollback). -/
theorem c6_port_mapping_order (env : AddEnv) (args : CmdArgs)
    (cfg : WrapperConfig) (result030 : Result030)
    (metadata : List (String × String)) (ip : String) (rest : List String)
    (resp : HTTPResponse) (ldns : List String)
    (good : List PortMapping) (bad : PortMapping) (after : List PortMapping)
    (hok : DelegateOk env cfg result030 metadata)
    (hips : result030.ips = ip :: rest)
    (hstore : env.storeAdd = Except.ok ())
    (hhttp : env.httpGet = Except.ok resp) (h200 : resp.statusCode = 200)
    (hdns : getLocalDNSServers env.parseIP env.isLinkLocalUnicast cfg.dnsServers =
      Except.ok ldns)
    (hifc : 0 < cfg.temporaryUnderlayInterfaceNames.length ∨
      ∃ ns, env.getNamesFromIPs = Except.ok ns)
    (hid : args.containerID ≠ "")
    (hnetout : env.netOutInitialize = Except.ok ())
    (hsplit : cfg.runtimeConfig.portMappings = good ++ bad :: after)
    (hg : ∀ m ∈ good, 0 < m.hostPort ∧ env.netInAddRule m = Except.ok ())
    (hb : bad.hostPort ≤ 0) :
    (cmdAdd env args).outcome = AddOutcome.err (AddErr.cannotAllocatePort bad.hostPort) ∧
    (cmdAdd env args).events.filter Event.isNetInAddRule =
      good.map (fun m =>
        Event.netInAddRule args.containerID m.hostPort m.containerPort
          cfg.instanceAddress ip) ∧
    (∀ h, Event.netInCleanup h ∉ (cmdAdd env args).events) := by
  obtain ⟨h1, h2, h3, h4, h5⟩ := hok
  have hpm := processPortMappings_split_bad env args.containerID cfg.instanceAddress ip
    good bad after hg hb
  by_cases hl : 0 < cfg.temporaryUnderlayInterfaceNames.length
  · refine ⟨?_, ?_, ?_⟩ <;>
      simp [cmdAdd, cmdAddNotify, cmdAddDNS, cmdAddIface, cmdAddNetOut, cmdAddNetIn,
        h1, h2, h3, h4, h5, hips, hstore, hhttp, h200, hdns, hl, hid, hnetout,
        hsplit, hpm, filter_isNetInAddRule_map, Event.isNetInAddRule]
  · obtain hov | ⟨ns, hns⟩ := hifc
    · exact absurd hov hl
    · refine ⟨?_, ?_, ?_⟩ <;>
        simp [cmdAdd, cmdAddNotify, cmdAddDNS, cmdAddIface, cmdAddNetOut, cmdAddNetIn,
          h1, h2, h3, h4, h5, hips, hstore, hhttp, h200, hdns, hl, hns, hid, hnetout,
          hsplit, hpm, filter_isNetInAddRule_map, Event.isNetInAddRule]

/-- C6 witness: the theorem at a concrete environment whose port-mapping
list is a valid mapping, then one with host port 0, then another valid
one: Add fails on the zero port, exactly the first mapping's rule was
applied, no cleanup call is in the trace. -/
theorem c6_port_mapping_order_witness :
    (cmdAdd c6Env demoArgs).outcome = AddOutcome.err (AddErr.cannotAllocatePort 0) ∧
    (cmdAdd c6Env demoArgs).events.filter Event.isNetInAddRule =
      [Event.netInAddRule "container-1" 8080 80 "10.0.16.4" "10.255.30.5"] ∧
    (∀ h, Event.netInCleanup h ∉ (cmdAdd c6Env demoArgs).events) :=
  c6_port_mapping_order c6Env demoArgs
    (demoConfig [⟨8080, 80⟩, ⟨0, 90⟩, ⟨7070, 70⟩]) demoResult
    [("policy_group_id", "pg-1")] "10.255.30.5" ["10.255.30.6"] ⟨200, "ok"⟩
    ["169.254.0.2"] [⟨8080, 80⟩] ⟨0, 90⟩ [⟨7070, 70⟩]
    ⟨rfl, rfl, rfl, rfl, rfl⟩ rfl rfl rfl rfl rfl (Or.inr ⟨["eth0"], rfl⟩)
    (by decide) rfl rfl
    (by
      intro m hm
      rw [List.mem_singleton] at hm
      subst hm
      exact ⟨by decide, rfl⟩)
    (by decide)

/-- Whenever the container ID is nonempty, the NetOut initialization stage
records its call, with the DNS list it was given, whether or not the call
itself fails. -/
theorem cmdAddNetOut_emits_init
    {env args cfg result030 containerIP localDNSServers interfaceNames acc}
    (hid : args.containerID ≠ "") :
    Event.netOutInit args.containerID containerIP interfaceNames localDNSServers ∈
      (cmdAddNetOut env args cfg result030 containerIP localDNSServers
        interfaceNames acc).events := by
  unfold cmdAddNetOut
  rcases henv : env.netOutInitialize with e | u <;> simp only [henv, if_neg hid]
  · simp
  · exact cmdAddNetIn_events_mono (by simp)

/-- C7: the DNS list handed to the firewall chain managers contains
exactly the configured entries that parse as IP addresses and are
link-local unicast, in order; a configured entry that fails IP parsing
makes the whole Add fail with the configuration error naming the first
such entry. -/
theorem c7_dns_filtering (env : AddEnv) (args : CmdArgs) (cfg : WrapperConfig)
    (result030 : Result030) (metadata : List (String × String))
    (ip : String) (rest : List String) (resp : HTTPResponse)
    (hok : DelegateOk env cfg result030 metadata)
    (hips : result030.ips = ip :: rest)
    (hstore : env.storeAdd = Except.ok ())
    (hhttp : env.httpGet = Except.ok resp) (h200 : resp.statusCode = 200) :
    ((∀ s ∈ cfg.dnsServers, (env.parseIP s).isSome) →
      getLocalDNSServers env.parseIP env.isLinkLocalUnicast cfg.dnsServers =
        Except.ok (cfg.dnsServers.filter fun s =>
          ((env.parseIP s).map env.isLinkLocalUnicast).getD false) ∧
      Event.dnsFiltered (cfg.dnsServers.filter fun s =>
          ((env.parseIP s).map env.isLinkLocalUnicast).getD false) ∈
        (cmdAdd env args).events ∧
      (args.containerID ≠ "" →
        (0 < cfg.temporaryUnderlayInterfaceNames.length ∨
          ∃ ns, env.getNamesFromIPs = Except.ok ns) →
        ∃ ifnames, Event.netOutInit args.containerID ip ifnames
          (cfg.dnsServers.filter fun s =>
            ((env.parseIP s).map env.isLinkLocalUnicast).getD false) ∈
          (cmdAdd env args).events)) ∧
    (∀ pre bad post, cfg.dnsServers = pre ++ bad :: post →
      (∀ s ∈ pre, (env.parseIP s).isSome) → env.parseIP bad = none →
      (cmdAdd env args).outcome = AddOutcome.err (AddErr.invalidDNS bad)) := by
  obtain ⟨h1, h2, h3, h4, h5⟩ := hok
  have hrun : cmdAdd env args = cmdAddDNS env args cfg result030 ip
      [Event.delegateAdd, Event.storeAdd args.containerID ip metadata,
       Event.policyNotify cfg.policyAgentForcePollAddress] := by
    simp [cmdAdd, cmdAddNotify, h1, h2, h3, h4, h5, hips, hstore, hhttp, h200]
  constructor
  · intro hall
    have hdns := getLocalDNSServers_all_parse env.parseIP env.isLinkLocalUnicast
      cfg.dnsServers hall
    refine ⟨hdns, ?_, ?_⟩
    · rw [hrun]
      simp only [cmdAddDNS, hdns]
      exact cmdAddIface_events_mono (by simp)
    · intro hid hifc
      rw [hrun]
      simp only [cmdAddDNS, hdns]
      by_cases hl : 0 < cfg.temporaryUnderlayInterfaceNames.length
      · refine ⟨cfg.temporaryUnderlayInterfaceNames, ?_⟩
        simp only [cmdAddIface, if_pos hl]
        exact cmdAddNetOut_emits_init hid
      · obtain hov | ⟨ns, hns⟩ := hifc
        · exact absurd hov hl
        · refine ⟨ns, ?_⟩
          simp only [cmdAddIface, if_neg hl, hns]
          exact cmdAddNetOut_emits_init hid
  · intro pre bad post hsplit hpre hbad
    have hdns := getLocalDNSServers_first_bad env.parseIP env.isLinkLocalUnicast
      pre bad post hpre hbad
    rw [hrun]
    simp [cmdAddDNS, hsplit, hdns]

/-- C7 witness: the theorem at the all-success environment whose
configured DNS list is a link-local and a public address: exactly the
link-local one reaches the chain managers. -/
theorem c7_dns_filtering_witness :
    ((demoConfig [⟨8080, 80⟩]).dnsServers.filter fun s =>
        ((happyAddEnv.parseIP s).map happyAddEnv.isLinkLocalUnicast).getD false) =
      ["169.254.0.2"] ∧
    Event.dnsFiltered ["169.254.0.2"] ∈ (cmdAdd happyAddEnv demoArgs).events ∧
    (∃ ifnames, Event.netOutInit "container-1" "10.255.30.5" ifnames ["169.254.0.2"] ∈
      (cmdAdd happyAddEnv demoArgs).events) := by
  have h := c7_dns_filtering happyAddEnv demoArgs (demoConfig [⟨8080, 80⟩]) demoResult
    [("policy_group_id", "pg-1")] "10.255.30.5" ["10.255.30.6"] ⟨200, "ok"⟩
    ⟨rfl, rfl, rfl, rfl, rfl⟩ rfl rfl rfl rfl
  refine ⟨by decide, ?_, ?_⟩
  · exact (h.1 (by decide)).2.1
  · exact (h.1 (by decide)).2.2 (by decide) (Or.inr ⟨["eth0"], rfl⟩)

/-- C8: on a fully successful Add, the result printed to the CNI caller is
the delegate's normalized result with only its DNS nameserver list
replaced by the wrapper's full configured DNS server list (the assigned
IPs, DNS domain, search list and options are unchanged, and the list is
the configured one, not the link-local-filtered subset), and the container
IP used for the store write and the masquerade exemption is the first
address of the delegate result's IP list. -/
theorem c8_success_result (env : AddEnv) (args : CmdArgs) (cfg : WrapperConfig)
    (result030 : Result030) (metadata : List (String × String))
    (ip : String) (rest : List String) (resp : HTTPResponse) (ldns : List String)
    (hok : DelegateOk env cfg result030 metadata)
    (hips : result030.ips = ip :: rest)
    (hstore : env.storeAdd = Except.ok ())
    (hhttp : env.httpGet = Except.ok resp) (h200 : resp.statusCode = 200)
    (hdns : getLocalDNSServers env.parseIP env.isLinkLocalUnicast cfg.dnsServers =
      Except.ok ldns)
    (hifc : 0 < cfg.temporaryUnderlayInterfaceNames.length ∨
      ∃ ns, env.getNamesFromIPs = Except.ok ns)
    (hid : args.containerID ≠ "")
    (hnetout : env.netOutInitialize = Except.ok ())
    (hpm : ∀ m ∈ cfg.runtimeConfig.portMappings,
      0 < m.hostPort ∧ env.netInAddRule m = Except.ok ())
    (hbulk : env.bulkInsertRules = Except.ok ())
    (hmasq : env.addIPMasq = Except.ok ())
    (hprint : env.printResult = Except.ok ()) :
    (cmdAdd env args).outcome = AddOutcome.ok
      ⟨result030.ips, ⟨cfg.dnsServers, result030.dns.domain,
        result030.dns.search, result030.dns.options⟩⟩ ∧
    Event.storeAdd args.containerID ip metadata ∈ (cmdAdd env args).events ∧
    Event.addIPMasq ip cfg.noMasqueradeCIDRRange cfg.vtepName ∈
      (cmdAdd env args).events ∧
    Event.printResult ⟨result030.ips, ⟨cfg.dnsServers, result030.dns.domain,
      result030.dns.search, result030.dns.options⟩⟩ ∈ (cmdAdd env args).events := by
  obtain ⟨h1, h2, h3, h4, h5⟩ := hok
  have hpm2 := processPortMappings_all_ok env args.containerID cfg.instanceAddress ip
    cfg.runtimeConfig.portMappings hpm
  by_cases hl : 0 < cfg.temporaryUnderlayInterfaceNames.length
  · refine ⟨?_, ?_, ?_, ?_⟩ <;>
      simp [cmdAdd, cmdAddNotify, cmdAddDNS, cmdAddIface, cmdAddNetOut, cmdAddNetIn,
        cmdAddBulkInsert, cmdAddMasq, cmdAddPrint, h1, h2, h3, h4, h5, hips, hstore,
        hhttp, h200, hdns, hl, hid, hnetout, hpm2, hbulk, hmasq, hprint]
  · obtain hov | ⟨ns, hns⟩ := hifc
    · exact absurd hov hl
    · refine ⟨?_, ?_, ?_, ?_⟩ <;>
        simp [cmdAdd, cmdAddNotify, cmdAddDNS, cmdAddIface, cmdAddNetOut, cmdAddNetIn,
          cmdAddBulkInsert, cmdAddMasq, cmdAddPrint, h1, h2, h3, h4, h5, hips, hstore,
          hhttp, h200, hdns, hl, hns, hid, hnetout, hpm2, hbulk, hmasq, hprint]

/-- C8 witness: the theorem at the all-success environment: the printed
result keeps the delegate's addresses and DNS domain data but carries the
full configured nameserver list, and the store write and masquerade
exemption use the first delegate address. -/
theorem c8_success_result_witness :
    (cmdAdd happyAddEnv demoArgs).outcome = AddOutcome.ok
      ⟨["10.255.30.5", "10.255.30.6"],
       ⟨["169.254.0.2", "8.8.8.8"], "apps.internal", ["sd"], ["od"]⟩⟩ ∧
    Event.storeAdd "container-1" "10.255.30.5" [("policy_group_id", "pg-1")] ∈
      (cmdAdd happyAddEnv demoArgs).events ∧
    Event.addIPMasq "10.255.30.5" "10.255.0.0/16" "silk-vtep" ∈
      (cmdAdd happyAddEnv demoArgs).events :=
  ⟨(c8_success_result happyAddEnv demoArgs (demoConfig [⟨8080, 80⟩]) demoResult
      [("policy_group_id", "pg-1")] "10.255.30.5" ["10.255.30.6"] ⟨200, "ok"⟩
      ["169.254.0.2"] ⟨rfl, rfl, rfl, rfl, rfl⟩ rfl rfl rfl rfl rfl
      (Or.inr ⟨["eth0"], rfl⟩) (by decide) rfl
      (by
        intro m hm
        simp [demoConfig] at hm
        subst hm
        exact ⟨by decide, rfl⟩)
      rfl rfl rfl).1,
   (c8_success_result happyAddEnv demoArgs (demoConfig [⟨8080, 80⟩]) demoResult
      [("policy_group_id", "pg-1")] "10.255.30.5" ["10.255.30.6"] ⟨200, "ok"⟩
      ["169.254.0.2"] ⟨rfl, rfl, rfl, rfl, rfl⟩ rfl rfl rfl rfl rfl
      (Or.inr ⟨["eth0"], rfl⟩) (by decide) rfl
      (by
        intro m hm
        simp [demoConfig] at hm
        subst hm
        exact ⟨by decide, rfl⟩)
      rfl rfl rfl).2.1,
   (c8_success_result happyAddEnv demoArgs (demoConfig [⟨8080, 80⟩]) demoResult
      [("policy_group_id", "pg-1")] "10.255.30.5" ["10.255.30.6"] ⟨200, "ok"⟩
      ["169.254.0.2"] ⟨rfl, rfl, rfl, rfl, rfl⟩ rfl rfl rfl rfl rfl
      (Or.inr ⟨["eth0"], rfl⟩) (by decide) rfl
      (by
        intro m hm
        simp [demoConfig] at hm
        subst hm
        exact ⟨by decide, rfl⟩)
      rfl rfl rfl).2.2.1⟩

/-- C9: when the delegate call succeeds, the container handle is the empty
string, and the store write, the policy-agent notification, the DNS
filtering and the interface-name resolution all succeed, each of those
steps executes before Add fails with the invalid-Container-ID error, and
the record written under the empty handle is not removed by that failing
Add. -/
theorem c9_empty_handle_checked_late (env : AddEnv) (cfg : WrapperConfig)
    (result030 : Result030) (metadata : List (String × String))
    (ip : String) (rest : List String) (resp : HTTPResponse)
    (ldns ns : List String)
    (hok : DelegateOk env cfg result030 metadata)
    (hips : result030.ips = ip :: rest)
    (hstore : env.storeAdd = Except.ok ())
    (hhttp : env.httpGet = Except.ok resp) (h200 : resp.statusCode = 200)
    (hdns : getLocalDNSServers env.parseIP env.isLinkLocalUnicast cfg.dnsServers =
      Except.ok ldns)
    (hov : cfg.temporaryUnderlayInterfaceNames = [])
    (hifc : env.getNamesFromIPs = Except.ok ns) :
    (cmdAdd env ⟨""⟩).outcome = AddOutcome.err AddErr.invalidContainerID ∧
    Event.storeAdd "" ip metadata ∈ (cmdAdd env ⟨""⟩).events ∧
    Event.policyNotify cfg.policyAgentForcePollAddress ∈ (cmdAdd env ⟨""⟩).events ∧
    Event.dnsFiltered ldns ∈ (cmdAdd env ⟨""⟩).events ∧
    Event.interfaceLookup ∈ (cmdAdd env ⟨""⟩).events ∧
    (∀ h, Event.storeDelete h ∉ (cmdAdd env ⟨""⟩).events) ∧
    (∀ a b c, Event.delIPMasq a b c ∉ (cmdAdd env ⟨""⟩).events) := by
  obtain ⟨h1, h2, h3, h4, h5⟩ := hok
  refine ⟨?_, ?_, ?_, ?_, ?_, ?_, ?_⟩ <;>
    simp [cmdAdd, cmdAddNotify, cmdAddDNS, cmdAddIface, cmdAddNetOut,
      h1, h2, h3, h4, h5, hips, hstore, hhttp, h200, hdns, hov, hifc]

/-- C9 witness: the theorem at the all-success environment invoked with an
empty container handle. -/
theorem c9_empty_handle_checked_late_witness :
    (cmdAdd happyAddEnv ⟨""⟩).outcome = AddOutcome.err AddErr.invalidContainerID ∧
    Event.storeAdd "" "10.255.30.5" [("policy_group_id", "pg-1")] ∈
      (cmdAdd happyAddEnv ⟨""⟩).events ∧
    (∀ h, Event.storeDelete h ∉ (cmdAdd happyAddEnv ⟨""⟩).events) :=
  ⟨(c9_empty_handle_checked_late happyAddEnv (demoConfig [⟨8080, 80⟩]) demoResult
      [("policy_group_id", "pg-1")] "10.255.30.5" ["10.255.30.6"] ⟨200, "ok"⟩
      ["169.254.0.2"] ["eth0"] ⟨rfl, rfl, rfl, rfl, rfl⟩ rfl rfl rfl rfl rfl
      rfl rfl).1,
   (c9_empty_handle_checked_late happyAddEnv (demoConfig [⟨8080, 80⟩]) demoResult
      [("policy_group_id", "pg-1")] "10.255.30.5" ["10.255.30.6"] ⟨200, "ok"⟩
      ["169.254.0.2"] ["eth0"] ⟨rfl, rfl, rfl, rfl, rfl⟩ rfl rfl rfl rfl rfl
      rfl rfl).2.1,
   (c9_empty_handle_checked_late happyAddEnv (demoConfig [⟨8080, 80⟩]) demoResult
      [("policy_group_id", "pg-1")] "10.255.30.5" ["10.255.30.6"] ⟨200, "ok"⟩
      ["169.254.0.2"] ["eth0"] ⟨rfl, rfl, rfl, rfl, rfl⟩ rfl rfl rfl rfl rfl
      rfl rfl).2.2.2.2.2.1⟩

/-- Left cancellation for string append. -/
theorem string_append_left_cancel {a b c : String} (h : a ++ b = a ++ c) : b = c :=
  String.ext (by simpa [String.data_append] using congrArg String.data h)

/-- C10 (amended): chain names come from one pure deterministic naming
function of (role tag, container handle) bounded to 28 characters; cmdAdd
and cmdDel configure the namer with the same bound, so Add-time and
Del-time names match; and whenever the combined names stay within the
bound (no truncation), two different handles never collide.  (Per the
counterexample, handles long enough to be truncated can collide.) -/
theorem c10_chain_naming_bounded_shared :
    addNetOutChainNamerMaxLength = delNetOutChainNamerMaxLength ∧
    addNetInChainNamerMaxLength = delNetInChainNamerMaxLength ∧
    (∀ roleTag handle, (chainName 28 roleTag handle).length ≤ 28) ∧
    (∀ roleTag h1 h2,
      (roleTag ++ "--" ++ h1).length ≤ 28 →
      (roleTag ++ "--" ++ h2).length ≤ 28 →
      chainName 28 roleTag h1 = chainName 28 roleTag h2 → h1 = h2) := by
  refine ⟨rfl, rfl, ?_, ?_⟩
  · intro roleTag handle
    unfold chainName
    by_cases hlen : (roleTag ++ "--" ++ handle).length > 28
    · simp only [if_pos hlen, String.length_mk, List.length_take]
      exact min_le_left _ _
    · simp only [if_neg hlen]
      exact Nat.le_of_not_lt hlen
  · intro roleTag h1 h2 hl1 hl2 heq
    unfold chainName at heq
    rw [if_neg (Nat.not_lt.mpr hl1), if_neg (Nat.not_lt.mpr hl2)] at heq
    exact string_append_left_cancel heq

/-- C10 witness: the amended theorem at a concrete role tag and short
handle, whose joined name is within the bound. -/
theorem c10_chain_naming_bounded_shared_witness :
    ("netin" ++ "--" ++ "c1").length ≤ 28 ∧ "c1" = "c1" :=
  ⟨by decide, c10_chain_naming_bounded_shared.2.2.2 "netin" "c1" "c1"
    (by decide) (by decide) rfl⟩

end CniWrapper
